import Mathlib

/-!
Verification of the pricing core and RPC quote layer of the substrate-dex
pallet (`src/rpc.rs`).  The quote layer, its error conversion and its tests
are translated from `src/rpc.rs`; the constant-product pricing functions
`get_input_price` / `get_output_price`, the internal pallet error type and
the test fixture live outside the available source and are modelled from
the specification, as marked in their doc comments.

Machine integers: balances are `u128` in the reference runtime; we embed
them as `Nat` together with explicit checked arithmetic against
`u128Max = 2^128 - 1`, mirroring the checked (`Overflow`-surfacing,
never wrapping) arithmetic the specification requires.
-/

namespace Dex

/-- Maximum value of the 128-bit balance type used by the computation. -/
def u128Max : Nat := 2 ^ 128 - 1

/-- Modelled from the spec: fee numerator of the 997/1000 (0.3%) trading fee. -/
def fee_numerator : Nat := 997

/-- Modelled from the spec: fee denominator of the 997/1000 (0.3%) trading fee. -/
def fee_denominator : Nat := 1000

/-- Modelled from the spec: the internal pallet error type `Error<T>`
(absent from the available source, which only matches on it).  It has the
three well-known kinds plus further kinds; every further kind is
represented by `other s` where `s` is its debug rendering. -/
inductive Error where
  | exchangeNotFound
  | notEnoughLiquidity
  | overflow
  | other (s : String)
deriving DecidableEq

/-- External RPC error type, from `src/rpc.rs` lines 7-13.  The
`unexpected` payload models `Vec<u8>` as a list of byte values. -/
inductive RpcError where
  | exchangeNotFound
  | notEnoughLiquidity
  | overflow
  | unexpected (bytes : List Nat)
deriving DecidableEq

/-- Byte rendering of a string, modelling `format!("{:?}", err).into_bytes()`. -/
def debugBytes (s : String) : List Nat := s.data.map Char.toNat

/-- Conversion `From<Error<T>> for RpcError`, from `src/rpc.rs` lines 17-26:
the three well-known kinds map to their same-named external kind, any other
kind to `unexpected` carrying its debug rendering as bytes. -/
def toRpcError : Error → RpcError
  | .exchangeNotFound => .exchangeNotFound
  | .notEnoughLiquidity => .notEnoughLiquidity
  | .overflow => .overflow
  | .other s => .unexpected (debugBytes s)

/-- Checked multiplication on the 128-bit balance type: fails with
`Overflow` instead of wrapping when the product exceeds `u128Max`. -/
def checkedMul (a b : Nat) : Except Error Nat :=
  if a * b ≤ u128Max then .ok (a * b) else .error .overflow

/-- Checked addition on the 128-bit balance type: fails with `Overflow`
instead of wrapping when the sum exceeds `u128Max`. -/
def checkedAdd (a b : Nat) : Except Error Nat :=
  if a + b ≤ u128Max then .ok (a + b) else .error .overflow

/-- Modelled from the spec: `compute_input_price` (`get_input_price`,
absent from the available source).  Fee-adjusted input
`amount_in * fee_numerator`; result is
`(after_fee * output_reserve) / (input_reserve * fee_denominator + after_fee)`
truncated toward zero, every intermediate product and sum checked against
the 128-bit width. -/
def get_input_price (amount_in input_reserve output_reserve : Nat) :
    Except Error Nat :=
  Except.bind (checkedMul amount_in fee_numerator) fun after_fee =>
  Except.bind (checkedMul after_fee output_reserve) fun numerator =>
  Except.bind (checkedMul input_reserve fee_denominator) fun scaled =>
  Except.bind (checkedAdd scaled after_fee) fun denominator =>
  .ok (numerator / denominator)

/-- Modelled from the spec: `compute_output_price` (`get_output_price`,
absent from the available source).  Fails with `NotEnoughLiquidity` when
`amount_out >= output_reserve`, before any arithmetic; otherwise returns
`input_reserve * amount_out * fee_denominator /
 ((output_reserve - amount_out) * fee_numerator) + 1`,
every intermediate product checked against the 128-bit width. -/
def get_output_price (amount_out input_reserve output_reserve : Nat) :
    Except Error Nat :=
  if output_reserve ≤ amount_out then .error .notEnoughLiquidity
  else
    Except.bind (checkedMul input_reserve amount_out) fun p =>
    Except.bind (checkedMul p fee_denominator) fun numerator =>
    Except.bind (checkedMul (output_reserve - amount_out) fee_numerator)
      fun denominator =>
    .ok (numerator / denominator + 1)

/-- Pool data for one asset, from the `Exchange` struct used by the tests
in `src/rpc.rs` (asset id, currency reserve, token reserve, liquidity
token id). -/
structure Exchange where
  asset_id : Nat
  currency_reserve : Nat
  token_reserve : Nat
  liquidity_token_id : Nat
deriving DecidableEq

/-- Runtime configuration: the external pool registry and the two
denomination-conversion functions supplied by `Config`/`ConfigHelper`. -/
structure Config where
  exchanges : Nat → Option Exchange
  asset_to_currency : Nat → Nat
  currency_to_asset : Nat → Nat

/-- Modelled from the spec: pool registry lookup `get_exchange` (absent
from the available source); fails with `ExchangeNotFound` when no pool is
provisioned for the asset identifier. -/
def get_exchange (cfg : Config) (asset_id : Nat) : Except Error Exchange :=
  match cfg.exchanges asset_id with
  | some e => .ok e
  | none => .error .exchangeNotFound

/-- Fixed-input currency-to-asset quote, from `src/rpc.rs` lines 31-42. -/
def get_currency_to_asset_input_price (cfg : Config)
    (asset_id currency_amount : Nat) : Except RpcError Nat :=
  Except.bind (Except.mapError toRpcError (get_exchange cfg asset_id))
    fun exchange =>
  Except.bind (Except.mapError toRpcError (get_input_price currency_amount
      exchange.currency_reserve (cfg.asset_to_currency exchange.token_reserve)))
    fun price =>
  .ok (cfg.currency_to_asset price)

/-- Fixed-output currency-to-asset quote, from `src/rpc.rs` lines 46-57. -/
def get_currency_to_asset_output_price (cfg : Config)
    (asset_id token_amount : Nat) : Except RpcError Nat :=
  Except.bind (Except.mapError toRpcError (get_exchange cfg asset_id))
    fun exchange =>
  Except.bind (Except.mapError toRpcError (get_output_price
      (cfg.asset_to_currency token_amount) exchange.currency_reserve
      (cfg.asset_to_currency exchange.token_reserve)))
    fun price =>
  .ok price

/-- Fixed-input asset-to-currency quote, from `src/rpc.rs` lines 61-72. -/
def get_asset_to_currency_input_price (cfg : Config)
    (asset_id token_amount : Nat) : Except RpcError Nat :=
  Except.bind (Except.mapError toRpcError (get_exchange cfg asset_id))
    fun exchange =>
  Except.bind (Except.mapError toRpcError (get_input_price
      (cfg.asset_to_currency token_amount)
      (cfg.asset_to_currency exchange.token_reserve)
      exchange.currency_reserve))
    fun price =>
  .ok price

/-- Fixed-output asset-to-currency quote, from `src/rpc.rs` lines 76-87. -/
def get_asset_to_currency_output_price (cfg : Config)
    (asset_id currency_amount : Nat) : Except RpcError Nat :=
  Except.bind (Except.mapError toRpcError (get_exchange cfg asset_id))
    fun exchange =>
  Except.bind (Except.mapError toRpcError (get_output_price currency_amount
      (cfg.asset_to_currency exchange.token_reserve)
      exchange.currency_reserve))
    fun price =>
  .ok (cfg.currency_to_asset price)

/-- Modelled from the spec: the reference pool fixture of the test runtime
(absent from the available source).  One pool, `ASSET_A = 1`, both
reserves at the initial liquidity `10^12`, identity denomination
conversions; this is the most standard fixture reproducing the spec's
sample outputs 996999 and 1003011. -/
def testExchange : Exchange :=
  { asset_id := 1, currency_reserve := 10 ^ 12, token_reserve := 10 ^ 12,
    liquidity_token_id := 100 }

/-- Modelled from the spec: the reference runtime configuration. -/
def testConfig : Config :=
  { exchanges := fun i => if i = 1 then some testExchange else none,
    asset_to_currency := fun a => a,
    currency_to_asset := fun a => a }

/-- Modelled from the spec: the fixture after `max_exchange_reserves`
(`src/rpc.rs` lines 238-248) set both reserves of `ASSET_A` to `u128::MAX`. -/
def maxConfig : Config :=
  { exchanges := fun i =>
      if i = 1 then
        some { asset_id := 1, currency_reserve := u128Max,
               token_reserve := u128Max, liquidity_token_id := 100 }
      else none,
    asset_to_currency := fun a => a,
    currency_to_asset := fun a => a }

/-! ### Helper lemmas shared by the claim theorems -/

theorem get_input_price_ok (a r_in r_out : Nat)
    (h1 : a * fee_numerator ≤ u128Max)
    (h2 : a * fee_numerator * r_out ≤ u128Max)
    (h3 : r_in * fee_denominator ≤ u128Max)
    (h4 : r_in * fee_denominator + a * fee_numerator ≤ u128Max) :
    get_input_price a r_in r_out =
      .ok (a * fee_numerator * r_out /
        (r_in * fee_denominator + a * fee_numerator)) := by
  simp [get_input_price, checkedMul, checkedAdd, Except.bind, h1, h2, h3, h4]

theorem get_input_price_err1 {a : Nat} (r_in r_out : Nat)
    (h1 : u128Max < a * fee_numerator) :
    get_input_price a r_in r_out = .error .overflow := by
  simp [get_input_price, checkedMul, Except.bind, Nat.not_le.mpr h1]

theorem get_input_price_err2 {a r_out : Nat} (r_in : Nat)
    (h1 : a * fee_numerator ≤ u128Max)
    (h2 : u128Max < a * fee_numerator * r_out) :
    get_input_price a r_in r_out = .error .overflow := by
  simp [get_input_price, checkedMul, Except.bind, h1, Nat.not_le.mpr h2]

theorem get_input_price_err3 {a r_in : Nat} (r_out : Nat)
    (h1 : a * fee_numerator ≤ u128Max)
    (h2 : a * fee_numerator * r_out ≤ u128Max)
    (h3 : u128Max < r_in * fee_denominator) :
    get_input_price a r_in r_out = .error .overflow := by
  simp [get_input_price, checkedMul, Except.bind, h1, h2, Nat.not_le.mpr h3]

theorem get_input_price_err4 {a r_in : Nat} (r_out : Nat)
    (h1 : a * fee_numerator ≤ u128Max)
    (h2 : a * fee_numerator * r_out ≤ u128Max)
    (h3 : r_in * fee_denominator ≤ u128Max)
    (h4 : u128Max < r_in * fee_denominator + a * fee_numerator) :
    get_input_price a r_in r_out = .error .overflow := by
  simp [get_input_price, checkedMul, checkedAdd, Except.bind, h1, h2, h3,
    Nat.not_le.mpr h4]

theorem get_input_price_ok_inv {a r_in r_out v : Nat}
    (h : get_input_price a r_in r_out = .ok v) :
    v = a * fee_numerator * r_out /
      (r_in * fee_denominator + a * fee_numerator) := by
  by_cases h1 : a * fee_numerator ≤ u128Max
  · by_cases h2 : a * fee_numerator * r_out ≤ u128Max
    · by_cases h3 : r_in * fee_denominator ≤ u128Max
      · by_cases h4 : r_in * fee_denominator + a * fee_numerator ≤ u128Max
        · rw [get_input_price_ok a r_in r_out h1 h2 h3 h4] at h
          exact (Except.ok.inj h).symm
        · rw [get_input_price_err4 r_out h1 h2 h3 (Nat.not_le.mp h4)] at h
          simp at h
      · rw [get_input_price_err3 r_out h1 h2 (Nat.not_le.mp h3)] at h
        simp at h
    · rw [get_input_price_err2 r_in h1 (Nat.not_le.mp h2)] at h
      simp at h
  · rw [get_input_price_err1 r_in r_out (Nat.not_le.mp h1)] at h
    simp at h

theorem get_output_price_liq {a : Nat} (r_in : Nat) {r_out : Nat}
    (h : r_out ≤ a) :
    get_output_price a r_in r_out = .error .notEnoughLiquidity := by
  simp [get_output_price, h]

theorem get_output_price_ok (a r_in r_out : Nat) (h : a < r_out)
    (h1 : r_in * a ≤ u128Max)
    (h2 : r_in * a * fee_denominator ≤ u128Max)
    (h3 : (r_out - a) * fee_numerator ≤ u128Max) :
    get_output_price a r_in r_out =
      .ok (r_in * a * fee_denominator /
        ((r_out - a) * fee_numerator) + 1) := by
  simp [get_output_price, Nat.not_le.mpr h, checkedMul, Except.bind, h1, h2, h3]

theorem get_output_price_err1 {a r_in r_out : Nat} (h : a < r_out)
    (h1 : u128Max < r_in * a) :
    get_output_price a r_in r_out = .error .overflow := by
  simp [get_output_price, Nat.not_le.mpr h, checkedMul, Except.bind,
    Nat.not_le.mpr h1]

theorem get_output_price_err2 {a r_in r_out : Nat} (h : a < r_out)
    (h1 : r_in * a ≤ u128Max)
    (h2 : u128Max < r_in * a * fee_denominator) :
    get_output_price a r_in r_out = .error .overflow := by
  simp [get_output_price, Nat.not_le.mpr h, checkedMul, Except.bind, h1,
    Nat.not_le.mpr h2]

theorem get_output_price_err3 {a r_in r_out : Nat} (h : a < r_out)
    (h1 : r_in * a ≤ u128Max)
    (h2 : r_in * a * fee_denominator ≤ u128Max)
    (h3 : u128Max < (r_out - a) * fee_numerator) :
    get_output_price a r_in r_out = .error .overflow := by
  simp [get_output_price, Nat.not_le.mpr h, checkedMul, Except.bind, h1, h2,
    Nat.not_le.mpr h3]

theorem get_output_price_ok_inv {a r_in r_out v : Nat}
    (h : get_output_price a r_in r_out = .ok v) :
    a < r_out ∧
    v = r_in * a * fee_denominator / ((r_out - a) * fee_numerator) + 1 := by
  by_cases hl : r_out ≤ a
  · rw [get_output_price_liq r_in hl] at h
    simp at h
  · have hlt : a < r_out := Nat.not_le.mp hl
    refine ⟨hlt, ?_⟩
    by_cases h1 : r_in * a ≤ u128Max
    · by_cases h2 : r_in * a * fee_denominator ≤ u128Max
      · by_cases h3 : (r_out - a) * fee_numerator ≤ u128Max
        · rw [get_output_price_ok a r_in r_out hlt h1 h2 h3] at h
          exact (Except.ok.inj h).symm
        · rw [get_output_price_err3 hlt h1 h2 (Nat.not_le.mp h3)] at h
          simp at h
      · rw [get_output_price_err2 hlt h1 (Nat.not_le.mp h2)] at h
        simp at h
    · rw [get_output_price_err1 hlt (Nat.not_le.mp h1)] at h
      simp at h

theorem div_le_div_cross {u v u' v' : Nat} (hv' : 0 < v')
    (h : u * v' ≤ u' * v) : u / v ≤ u' / v' := by
  rcases Nat.eq_zero_or_pos v with hv | hv
  · subst hv
    simp
  · rw [Nat.le_div_iff_mul_le hv']
    have h1 : u / v * v ≤ u := Nat.div_mul_le_self u v
    have h2 : u / v * v' * v ≤ u' * v := by
      calc u / v * v' * v = u / v * v * v' := by ring
        _ ≤ u * v' := Nat.mul_le_mul_right v' h1
        _ ≤ u' * v := h
    exact Nat.le_of_mul_le_mul_right h2 hv

theorem get_output_price_ne_liq {a r_in r_out : Nat} (h : a < r_out) :
    get_output_price a r_in r_out ≠ .error .notEnoughLiquidity := by
  by_cases h1 : r_in * a ≤ u128Max
  · by_cases h2 : r_in * a * fee_denominator ≤ u128Max
    · by_cases h3 : (r_out - a) * fee_numerator ≤ u128Max
      · rw [get_output_price_ok a r_in r_out h h1 h2 h3]
        simp
      · rw [get_output_price_err3 h h1 h2 (Nat.not_le.mp h3)]
        simp
    · rw [get_output_price_err2 h h1 (Nat.not_le.mp h2)]
      simp
  · rw [get_output_price_err1 h (Nat.not_le.mp h1)]
    simp

theorem inputFormula_mono {r_in r_out a a' : Nat} (h : a ≤ a') :
    a * fee_numerator * r_out / (r_in * fee_denominator + a * fee_numerator) ≤
    a' * fee_numerator * r_out /
      (r_in * fee_denominator + a' * fee_numerator) := by
  rcases Nat.eq_zero_or_pos (r_in * fee_denominator + a' * fee_numerator)
    with hv | hv
  · have ha' : a' * fee_numerator = 0 := by omega
    have ha'0 : a' = 0 := by
      simp [fee_numerator] at ha'
      omega
    have ha0 : a = 0 := by omega
    subst ha0
    simp
  · apply div_le_div_cross hv
    have e1 : a * fee_numerator * r_out *
        (r_in * fee_denominator + a' * fee_numerator) =
        a * (fee_numerator * r_out * (r_in * fee_denominator)) +
          a * a' * (fee_numerator * r_out * fee_numerator) := by ring
    have e2 : a' * fee_numerator * r_out *
        (r_in * fee_denominator + a * fee_numerator) =
        a' * (fee_numerator * r_out * (r_in * fee_denominator)) +
          a * a' * (fee_numerator * r_out * fee_numerator) := by ring
    rw [e1, e2]
    exact Nat.add_le_add_right (Nat.mul_le_mul_right _ h) _

theorem outputFormula_mono {r_in r_out a a' : Nat} (h : a ≤ a')
    (ha' : a' < r_out) :
    r_in * a * fee_denominator / ((r_out - a) * fee_numerator) + 1 ≤
    r_in * a' * fee_denominator / ((r_out - a') * fee_numerator) + 1 := by
  apply Nat.add_le_add_right
  apply div_le_div_cross
  · exact Nat.mul_pos (Nat.sub_pos_of_lt ha') (by norm_num [fee_numerator])
  · have step : a * (r_out - a') ≤ a' * (r_out - a) :=
      le_trans (Nat.mul_le_mul_right _ h)
        (Nat.mul_le_mul_left _ (Nat.sub_le_sub_left h r_out))
    have e1 : r_in * a * fee_denominator * ((r_out - a') * fee_numerator) =
        a * (r_out - a') * (r_in * fee_denominator * fee_numerator) := by ring
    have e2 : r_in * a' * fee_denominator * ((r_out - a) * fee_numerator) =
        a' * (r_out - a) * (r_in * fee_denominator * fee_numerator) := by ring
    rw [e1, e2]
    exact Nat.mul_le_mul_right _ step

/-! ### Claim theorems -/

/-- C1: for every `amount_out`, `input_reserve`, `output_reserve` with
`amount_out < output_reserve` and no intermediate overflow,
`get_output_price` returns
`floor(input_reserve * amount_out * fee_denominator /
 ((output_reserve - amount_out) * fee_numerator)) + 1`; and with the
997/1000 fee and the reference pool fixture, requesting a fixed output of
1,000,000 currency units via `get_asset_to_currency_output_price` requires
paying 1,003,011 asset units. -/
theorem c1_output_price_formula :
    (∀ a r_in r_out : Nat, a < r_out →
      r_in * a ≤ u128Max →
      r_in * a * fee_denominator ≤ u128Max →
      (r_out - a) * fee_numerator ≤ u128Max →
      get_output_price a r_in r_out =
        .ok (r_in * a * fee_denominator /
          ((r_out - a) * fee_numerator) + 1)) ∧
    get_asset_to_currency_output_price testConfig 1 1000000 =
      .ok 1003011 := by
  exact ⟨fun a r_in r_out h h1 h2 h3 =>
    get_output_price_ok a r_in r_out h h1 h2 h3, rfl⟩

/-- Witness for C1 at the fixture values. -/
theorem c1_output_price_formula_witness :
    get_output_price 1000000 (10 ^ 12) (10 ^ 12) = .ok 1003011 := by
  rw [c1_output_price_formula.1 1000000 (10 ^ 12) (10 ^ 12)
    (by norm_num) (by norm_num [u128Max])
    (by norm_num [u128Max, fee_denominator])
    (by norm_num [u128Max, fee_numerator])]
  rfl

/-- C2: for every `amount_in`, `input_reserve`, `output_reserve` with no
intermediate overflow, `get_input_price` returns
`floor(amount_in * fee_numerator * output_reserve /
 (input_reserve * fee_denominator + amount_in * fee_numerator))`; and with
the 997/1000 fee and the reference pool fixture, a fixed input of
1,000,000 currency units via `get_currency_to_asset_input_price` yields
996,999 asset units. -/
theorem c2_input_price_formula :
    (∀ a r_in r_out : Nat,
      a * fee_numerator ≤ u128Max →
      a * fee_numerator * r_out ≤ u128Max →
      r_in * fee_denominator ≤ u128Max →
      r_in * fee_denominator + a * fee_numerator ≤ u128Max →
      get_input_price a r_in r_out =
        .ok (a * fee_numerator * r_out /
          (r_in * fee_denominator + a * fee_numerator))) ∧
    get_currency_to_asset_input_price testConfig 1 1000000 =
      .ok 996999 := by
  exact ⟨fun a r_in r_out h1 h2 h3 h4 =>
    get_input_price_ok a r_in r_out h1 h2 h3 h4, rfl⟩

/-- Witness for C2 at the fixture values. -/
theorem c2_input_price_formula_witness :
    get_input_price 1000000 (10 ^ 12) (10 ^ 12) = .ok 996999 := by
  rw [c2_input_price_formula.1 1000000 (10 ^ 12) (10 ^ 12)
    (by norm_num [u128Max, fee_numerator])
    (by norm_num [u128Max, fee_numerator])
    (by norm_num [u128Max, fee_denominator])
    (by norm_num [u128Max, fee_numerator, fee_denominator])]
  rfl

/-- C3: `get_output_price` fails with `NotEnoughLiquidity` for every
`amount_out >= output_reserve` — before any curve arithmetic, hence
unconditionally — and succeeds for every `amount_out < output_reserve`
when no intermediate overflow occurs. -/
theorem c3_liquidity_boundary :
    (∀ a r_in r_out : Nat, r_out ≤ a →
      get_output_price a r_in r_out = .error .notEnoughLiquidity) ∧
    (∀ a r_in r_out : Nat, a < r_out →
      r_in * a ≤ u128Max →
      r_in * a * fee_denominator ≤ u128Max →
      (r_out - a) * fee_numerator ≤ u128Max →
      ∃ v, get_output_price a r_in r_out = .ok v) := by
  refine ⟨fun a r_in r_out h => get_output_price_liq r_in h, ?_⟩
  intro a r_in r_out h h1 h2 h3
  exact ⟨_, get_output_price_ok a r_in r_out h h1 h2 h3⟩

/-- Witness for C3: both branches at concrete values. -/
theorem c3_liquidity_boundary_witness :
    get_output_price 7 10 7 = .error .notEnoughLiquidity ∧
    ∃ v, get_output_price 2 10 7 = .ok v :=
  ⟨c3_liquidity_boundary.1 7 10 7 (by decide),
   c3_liquidity_boundary.2 2 10 7 (by decide) (by decide) (by decide)
     (by decide)⟩

/-- C5: an intermediate product exceeding the 128-bit width yields
`Overflow` (never a wrapped value); quoting with `u128::MAX` for the trade
amount, or with `u128::MAX` for both reserves, yields `Overflow`, while
moderate values succeed. -/
theorem c5_overflow_boundary :
    (∀ a r_in r_out : Nat, u128Max < a * fee_numerator →
      get_input_price a r_in r_out = .error .overflow) ∧
    get_currency_to_asset_input_price testConfig 1 u128Max =
      .error .overflow ∧
    get_currency_to_asset_output_price maxConfig 1 1 = .error .overflow ∧
    get_currency_to_asset_input_price testConfig 1 1000000 = .ok 996999 ∧
    get_currency_to_asset_output_price testConfig 1 1000000 =
      .ok 1003011 := by
  exact ⟨fun a r_in r_out h => get_input_price_err1 r_in r_out h,
    rfl, rfl, rfl, rfl⟩

/-- Witness for C5: the general overflow clause at `u128::MAX`. -/
theorem c5_overflow_boundary_witness :
    get_input_price u128Max 3 3 = .error .overflow :=
  c5_overflow_boundary.1 u128Max 3 3 (by decide)

/-- C6: for every asset identifier with no provisioned pool, each of the
four quote operations fails with `ExchangeNotFound`, regardless of the
amount argument. -/
theorem c6_exchange_not_found :
    ∀ cfg : Config, ∀ asset_id : Nat, cfg.exchanges asset_id = none →
    ∀ amount : Nat,
      get_currency_to_asset_input_price cfg asset_id amount =
        .error .exchangeNotFound ∧
      get_currency_to_asset_output_price cfg asset_id amount =
        .error .exchangeNotFound ∧
      get_asset_to_currency_input_price cfg asset_id amount =
        .error .exchangeNotFound ∧
      get_asset_to_currency_output_price cfg asset_id amount =
        .error .exchangeNotFound := by
  intro cfg aid h amount
  refine ⟨?_, ?_, ?_, ?_⟩ <;>
    simp [get_currency_to_asset_input_price,
      get_currency_to_asset_output_price, get_asset_to_currency_input_price,
      get_asset_to_currency_output_price, get_exchange, h, Except.mapError,
      Except.bind, toRpcError]

/-- Witness for C6 at an unprovisioned asset id of the fixture. -/
theorem c6_exchange_not_found_witness :
    get_currency_to_asset_input_price testConfig 2 5 =
      .error .exchangeNotFound ∧
    get_currency_to_asset_output_price testConfig 2 5 =
      .error .exchangeNotFound ∧
    get_asset_to_currency_input_price testConfig 2 5 =
      .error .exchangeNotFound ∧
    get_asset_to_currency_output_price testConfig 2 5 =
      .error .exchangeNotFound :=
  c6_exchange_not_found testConfig 2 rfl 5

/-- C4 counterexample: at `amount_in = 1000` over reserves
`(input_reserve, output_reserve) = (1000, 3)` both computations succeed,
`get_input_price` yields 1, and feeding 1 back into `get_output_price`
requires only 502 < 1000 — so the round-trip required input can be
smaller than the original `amount_in`, refuting the claim as stated. -/
theorem c4_round_trip_counterexample :
    get_input_price 1000 1000 3 = .ok 1 ∧
    get_output_price 1 1000 3 = .ok 502 ∧ 502 < 1000 :=
  ⟨rfl, rfl, by decide⟩

/-- C4 (amended): the stated composition only satisfies the upper bound
`amount_in + 1` — `get_output_price` applied to the result of
`get_input_price` never requires more than `amount_in + 1`, but may
require less; the pool-favoring guarantee holds for the inverse
composition: paying the quote of `get_output_price` into
`get_input_price` always returns at least the requested output. -/
theorem c4_pool_favoring_rounding :
    (∀ x r_in r_out a o : Nat,
      get_output_price x r_in r_out = .ok a →
      get_input_price a r_in r_out = .ok o → x ≤ o) ∧
    (∀ a r_in r_out o r : Nat,
      get_input_price a r_in r_out = .ok o →
      get_output_price o r_in r_out = .ok r → r ≤ a + 1) := by
  constructor
  · intro x r_in r_out a o hout hin
    obtain ⟨hx, ha⟩ := get_output_price_ok_inv hout
    have ho := get_input_price_ok_inv hin
    have ha1 : 1 ≤ a := by
      rw [ha]
      exact Nat.le_add_left 1 _
    have hD : 0 < r_in * fee_denominator + a * fee_numerator := by
      have : 0 < a * fee_numerator :=
        Nat.mul_pos ha1 (by norm_num [fee_numerator])
      omega
    rw [ho, Nat.le_div_iff_mul_le hD]
    have hv : 0 < (r_out - x) * fee_numerator :=
      Nat.mul_pos (Nat.sub_pos_of_lt hx) (by norm_num [fee_numerator])
    have hfl : r_in * x * fee_denominator / ((r_out - x) * fee_numerator)
        < a := by
      rw [ha]
      exact Nat.lt_succ_self _
    have hkey : r_in * x * fee_denominator <
        a * ((r_out - x) * fee_numerator) :=
      (Nat.div_lt_iff_lt_mul hv).mp hfl
    have hxr : x ≤ r_out := le_of_lt hx
    zify [hxr] at hkey ⊢
    nlinarith [hkey]
  · intro a r_in r_out o r hin hout
    have ho := get_input_price_ok_inv hin
    obtain ⟨holt, hr⟩ := get_output_price_ok_inv hout
    have hoD : o * (r_in * fee_denominator + a * fee_numerator) ≤
        a * fee_numerator * r_out := by
      rw [ho]
      exact Nat.div_mul_le_self _ _
    have hv : 0 < (r_out - o) * fee_numerator :=
      Nat.mul_pos (Nat.sub_pos_of_lt holt) (by norm_num [fee_numerator])
    have hnum : r_in * o * fee_denominator ≤
        a * ((r_out - o) * fee_numerator) := by
      have hor : o ≤ r_out := le_of_lt holt
      zify [hor] at hoD ⊢
      nlinarith [hoD]
    have hfl : r_in * o * fee_denominator / ((r_out - o) * fee_numerator)
        ≤ a := by
      calc r_in * o * fee_denominator / ((r_out - o) * fee_numerator)
          ≤ a * ((r_out - o) * fee_numerator) /
              ((r_out - o) * fee_numerator) := Nat.div_le_div_right hnum
        _ = a := Nat.mul_div_cancel a hv
    rw [hr]
    omega

/-- Witness for C4 (amended) at concrete values: the inverse composition
at `(2, 10, 7)` and the upper bound at `(1000, 1000, 3)`. -/
theorem c4_pool_favoring_rounding_witness :
    (2 ≤ 2 ∧ 502 ≤ 1000 + 1) :=
  ⟨c4_pool_favoring_rounding.1 2 10 7 5 2 rfl rfl,
   c4_pool_favoring_rounding.2 1000 1000 3 1 502 rfl rfl⟩

/-- C7: for fixed reserves, `get_input_price` is non-decreasing in
`amount_in` and `get_output_price` is non-decreasing in `amount_out`,
over all argument values on which the computations succeed. -/
theorem c7_monotonicity :
    (∀ r_in r_out a a' o o' : Nat, a ≤ a' →
      get_input_price a r_in r_out = .ok o →
      get_input_price a' r_in r_out = .ok o' → o ≤ o') ∧
    (∀ r_in r_out a a' o o' : Nat, a ≤ a' →
      get_output_price a r_in r_out = .ok o →
      get_output_price a' r_in r_out = .ok o' → o ≤ o') := by
  constructor
  · intro r_in r_out a a' o o' h ho ho'
    rw [get_input_price_ok_inv ho, get_input_price_ok_inv ho']
    exact inputFormula_mono h
  · intro r_in r_out a a' o o' h ho ho'
    obtain ⟨ha, hv⟩ := get_output_price_ok_inv ho
    obtain ⟨ha', hv'⟩ := get_output_price_ok_inv ho'
    rw [hv, hv']
    exact outputFormula_mono h ha'

/-- Witness for C7 at concrete values over reserves `(1000, 1000)`. -/
theorem c7_monotonicity_witness : 90 ≤ 166 ∧ 112 ≤ 251 :=
  ⟨c7_monotonicity.1 1000 1000 100 200 90 166 (by decide) rfl rfl,
   c7_monotonicity.2 1000 1000 100 200 112 251 (by decide) rfl rfl⟩

/-- C8 counterexample: at `amount_in = u128::MAX` with
`output_reserve = 0` the fee multiplication already overflows, so
`get_input_price` fails with `Overflow` instead of succeeding with
zero, refuting the unconditional claim. -/
theorem c8_zero_reserve_counterexample :
    get_input_price u128Max 5 0 = .error .overflow := rfl

/-- C8 (amended): for every `amount_in` and `input_reserve` whose
intermediate fee products and sum stay within the 128-bit width, a zero
`output_reserve` makes `get_input_price` succeed with result zero. -/
theorem c8_zero_output_reserve :
    ∀ a r_in : Nat, a * fee_numerator ≤ u128Max →
      r_in * fee_denominator ≤ u128Max →
      r_in * fee_denominator + a * fee_numerator ≤ u128Max →
      get_input_price a r_in 0 = .ok 0 := by
  intro a r_in h1 h3 h4
  have h2 : a * fee_numerator * 0 ≤ u128Max := by simp [u128Max]
  rw [get_input_price_ok a r_in 0 h1 h2 h3 h4]
  simp

/-- Witness for C8 (amended) at small values. -/
theorem c8_zero_output_reserve_witness : get_input_price 7 5 0 = .ok 0 :=
  c8_zero_output_reserve 7 5 (by decide) (by decide) (by decide)

/-- C9: the internal-to-external error conversion is total (a Lean
function), maps the three well-known kinds to their same-named external
kinds, and maps every other kind to `unexpected` carrying exactly the
debug rendering of the internal error as bytes — a payload that uniquely
determines the rendered text, hence is not discarded. -/
theorem c9_error_conversion :
    toRpcError .exchangeNotFound = .exchangeNotFound ∧
    toRpcError .notEnoughLiquidity = .notEnoughLiquidity ∧
    toRpcError .overflow = .overflow ∧
    (∀ s : String, toRpcError (.other s) = .unexpected (debugBytes s)) ∧
    (∀ s t : String, debugBytes s = debugBytes t → s = t) := by
  refine ⟨rfl, rfl, rfl, fun s => rfl, ?_⟩
  intro s t h
  have hinj : Function.Injective Char.toNat := fun a b hab =>
    Char.ext (UInt32.ext hab)
  have h2 := List.map_injective_iff.mpr hinj h
  cases s
  cases t
  simp only at h2
  rw [h2]

/-- Witness for C9 at a concrete further error kind. -/
theorem c9_error_conversion_witness :
    toRpcError (Error.other "BalanceLow") =
      RpcError.unexpected (debugBytes "BalanceLow") ∧
    ("BalanceLow" : String) = "BalanceLow" :=
  ⟨c9_error_conversion.2.2.2.1 "BalanceLow",
   c9_error_conversion.2.2.2.2 "BalanceLow" "BalanceLow" rfl⟩

/-- C10: in `get_currency_to_asset_output_price` both the requested token
amount and the pool's token reserve pass through `asset_to_currency`
before `get_output_price` runs — the quote equals the engine call on the
converted values with no conversion of the result — and consequently the
`NotEnoughLiquidity` decision compares the two converted,
currency-denominated values. -/
theorem c10_output_quote_common_units :
    ∀ cfg : Config, ∀ asset_id amt : Nat, ∀ e : Exchange,
      cfg.exchanges asset_id = some e →
      get_currency_to_asset_output_price cfg asset_id amt =
        Except.mapError toRpcError
          (get_output_price (cfg.asset_to_currency amt) e.currency_reserve
            (cfg.asset_to_currency e.token_reserve)) ∧
      (get_currency_to_asset_output_price cfg asset_id amt =
          .error .notEnoughLiquidity ↔
        cfg.asset_to_currency e.token_reserve ≤
          cfg.asset_to_currency amt) := by
  intro cfg aid amt e h
  have hq : get_currency_to_asset_output_price cfg aid amt =
      Except.mapError toRpcError
        (get_output_price (cfg.asset_to_currency amt) e.currency_reserve
          (cfg.asset_to_currency e.token_reserve)) := by
    simp only [get_currency_to_asset_output_price, get_exchange, h]
    cases hres : get_output_price (cfg.asset_to_currency amt)
        e.currency_reserve (cfg.asset_to_currency e.token_reserve) <;>
      simp [Except.mapError, Except.bind, hres]
  refine ⟨hq, ?_⟩
  rw [hq]
  by_cases hl : cfg.asset_to_currency e.token_reserve ≤
      cfg.asset_to_currency amt
  · rw [get_output_price_liq e.currency_reserve hl]
    simp [Except.mapError, toRpcError, hl]
  · have hlt : cfg.asset_to_currency amt <
        cfg.asset_to_currency e.token_reserve := Nat.not_le.mp hl
    simp only [iff_false_intro hl, iff_false]
    intro hcontra
    cases hres : get_output_price (cfg.asset_to_currency amt)
        e.currency_reserve (cfg.asset_to_currency e.token_reserve) with
    | ok v =>
      rw [hres] at hcontra
      simp [Except.mapError] at hcontra
    | error err =>
      rw [hres] at hcontra
      simp only [Except.mapError] at hcontra
      have herr : err = Error.notEnoughLiquidity := by
        cases err <;> simp_all [toRpcError]
      rw [herr] at hres
      exact get_output_price_ne_liq hlt hres

/-- Witness for C10 at the reference fixture. -/
theorem c10_output_quote_common_units_witness :
    (get_currency_to_asset_output_price testConfig 1 1000000 =
      Except.mapError toRpcError
        (get_output_price (testConfig.asset_to_currency 1000000)
          testExchange.currency_reserve
          (testConfig.asset_to_currency testExchange.token_reserve))) ∧
    (get_currency_to_asset_output_price testConfig 1 1000000 =
        .error .notEnoughLiquidity ↔
      testConfig.asset_to_currency testExchange.token_reserve ≤
        testConfig.asset_to_currency 1000000) :=
  c10_output_quote_common_units testConfig 1 1000000 testExchange rfl

end Dex
